import Mathlib

/-!
Shallow embedding of `src/mcp-server/backend/app.py` (a Flask backend that
forwards chat prompts to a generative-model chat session and services at most
one GCS tool call per request), together with theorems settling the frozen
claims about it.

External collaborators are modelled as explicit oracles:
* the storage client (`storage.Client` / `list_buckets` / `get_bucket`) is a
  `StorageEnv` whose calls return `Except String _` — an `Except.error e`
  models a raised Python exception with message `str(e) = e`;
* the chat session (`model.start_chat` / `chat.send_message`) is a positional
  script of outcomes: each `send_message` consumes the next scripted outcome,
  which is either a raised exception or a response plus the turns the SDK
  appends to `chat.history`;
* `datetime.now().isoformat()` is an opaque string supplied by the
  environment, and datetime values of bucket metadata are carried directly as
  their ISO-8601 renderings (an `Option String`, `none` when the field is
  absent / falsy).

The handler is instrumented with an event trace recording every
`chat.send_message` call and every tool-function dispatch, so that claims of
the form "the model/storage is not contacted" and "the result is fed back
exactly once" are statable.
-/

namespace GcsAgent

/-- JSON-compatible values, the payloads moved between handler, model and
frontend (`jsonify` bodies, tool results). -/
inductive JVal where
  | null : JVal
  | str : String → JVal
  | bool : Bool → JVal
  | arr : List JVal → JVal
  | obj : List (String × JVal) → JVal
deriving Repr

/-- A Python dict used as a tool result: an ordered key/value mapping. -/
abbrev ToolResult := List (String × JVal)

/-- `k in d` for a dict `d`. -/
def hasKey (r : ToolResult) (k : String) : Bool :=
  r.any (fun p => p.1 == k)

/-- Python truthiness of an optional string argument: `None` and `""` are
falsy (`if not project_id: ...`). -/
def pyTruthyOpt : Option String → Bool
  | none => false
  | some s => !(s == "")

/-- Bucket metadata as surfaced by the storage SDK.  Datetime fields are
carried as their ISO-8601 renderings; `logging` as its `str(...)` rendering
(`none` when the attribute is falsy). -/
structure BucketRec where
  name : String
  storage_class : String
  location : String
  location_type : String
  time_created : Option String
  updated : Option String
  versioning_enabled : Bool
  logging : Option String
  labels : List (String × String)

/-- The storage backend: `listBuckets credentials project` models
`storage.Client(credentials=..., project=...).list_buckets()` (returning the
bucket names), `getBucket credentials project bucket` models
`storage.Client(...).get_bucket(bucket)`.  `Except.error e` models any raised
exception with message `e`. -/
structure StorageEnv where
  listBuckets : String → String → Except String (List String)
  getBucket : String → String → String → Except String BucketRec

/-- `list_gcs_buckets_func(project_id, credentials)` from app.py lines 24-33:
the whole body is wrapped in try/except, the missing-argument check returns an
error dict, and any exception is converted to `{"error": str(e)}`. -/
def list_gcs_buckets_func (project_id : Option String) (credentials : String)
    (env : StorageEnv) : ToolResult :=
  if pyTruthyOpt project_id = false then
    [("error", JVal.str "Project ID not provided by the model.")]
  else
    match env.listBuckets credentials (project_id.getD "") with
    | Except.ok buckets => [("buckets", JVal.arr (buckets.map JVal.str))]
    | Except.error e => [("error", JVal.str e)]

/-- Helper for `x.isoformat() if x else None` / `str(x) if x else None`. -/
def jOptStr : Option String → JVal
  | none => JVal.null
  | some s => JVal.str s

/-- The `details` dict built at app.py lines 46-56. -/
def detailsOf (b : BucketRec) : ToolResult :=
  [("name", JVal.str b.name),
   ("storage_class", JVal.str b.storage_class),
   ("location", JVal.str b.location),
   ("location_type", JVal.str b.location_type),
   ("time_created", jOptStr b.time_created),
   ("updated", jOptStr b.updated),
   ("versioning_enabled", JVal.bool b.versioning_enabled),
   ("logging", jOptStr b.logging),
   ("labels", JVal.obj (b.labels.map (fun p => (p.1, JVal.str p.2))))]

/-- `get_gcs_bucket_details_func(bucket_name, project_id, credentials)` from
app.py lines 35-59. -/
def get_gcs_bucket_details_func (bucket_name project_id : Option String)
    (credentials : String) (env : StorageEnv) : ToolResult :=
  if pyTruthyOpt bucket_name = false then
    [("error", JVal.str "Bucket name not provided by the model.")]
  else if pyTruthyOpt project_id = false then
    [("error", JVal.str "Project ID not provided by the model for getting bucket details.")]
  else
    match env.getBucket credentials (project_id.getD "") (bucket_name.getD "") with
    | Except.ok b => detailsOf b
    | Except.error e => [("error", JVal.str e)]

/-- A function call emitted by the model: name plus string-valued args
(`args.get(k)` is `argGet args k`). -/
structure FunctionCall where
  name : String
  args : List (String × String)

/-- `args.get(k)`: `none` when the key is absent. -/
def argGet (args : List (String × String)) (k : String) : Option String :=
  (args.find? (fun p => p.1 == k)).map Prod.snd

/-- A response candidate, carrying its `function_calls` list. -/
structure Candidate where
  function_calls : List FunctionCall

/-- One part of a Vertex `Content` turn.  Only text parts expose a `text`
key in `content.to_dict()`. -/
inductive VPart where
  | text : String → VPart
  | funcCall : FunctionCall → VPart
  | funcResponse : String → ToolResult → VPart

/-- `'text' in part` and `part['text']` of the to_dict rendering. -/
def partText? : VPart → Option String
  | VPart.text s => some s
  | _ => none

/-- A Vertex `Content` turn: role plus parts. -/
structure Content where
  role : String
  parts : List VPart

/-- A model response: candidate list plus the `.text` accessor. -/
structure VResponse where
  candidates : List Candidate
  text : String

/-- A message given to `chat.send_message`: the user prompt or a
`Part.from_function_response`. -/
inductive SentMsg where
  | prompt : String → SentMsg
  | functionResponse : String → ToolResult → SentMsg

/-- Instrumentation events: every `chat.send_message` call and every local
tool-function dispatch. -/
inductive Event where
  | chatSent : SentMsg → Event
  | toolCalled : String → Event

/-- Chat-session state: accumulated `chat.history` plus the remaining
scripted `send_message` outcomes. -/
structure ChatSt where
  history : List Content
  script : List (Except String (VResponse × List Content))

/-- `chat.send_message`: consume the next scripted outcome; on success the
oracle-provided turns (the echoed message and the model reply) are appended
to `chat.history`.  An exhausted script behaves as a raised exception. -/
def sendMessage (st : ChatSt) (_m : SentMsg) :
    Except String VResponse × ChatSt :=
  match st.script with
  | [] => (Except.error "model backend unavailable", { st with script := [] })
  | Except.error e :: rest => (Except.error e, { st with script := rest })
  | Except.ok (resp, app) :: rest =>
      (Except.ok resp, { history := st.history ++ app, script := rest })

/-- An inbound frontend history entry (`h.get('type')`, `h.get('content', '')`). -/
structure FrontMsg where
  type : Option String
  content : Option String

/-- The parsed JSON request body (`data.get('prompt')`, `data.get('history', [])`). -/
structure ReqBody where
  prompt : Option String
  history : List FrontMsg

/-- The HTTP request as seen by the handler.  `jsonBody` is the outcome of
`request.get_json()`; `Except.error e` models it raising. -/
structure HttpRequest where
  method : String
  authHeader : Option String
  jsonBody : Except String ReqBody

/-- The per-request environment: storage backend, chat script, and the
wall-clock reading used for timestamps. -/
structure Env where
  storage : StorageEnv
  script : List (Except String (VResponse × List Content))
  now : String

/-- An HTTP response: status plus JSON body (a bare string for OPTIONS). -/
structure HandlerResult where
  status : Nat
  body : JVal

/-- app.py line 120: `role = 'model' if h.get('type') == 'bot' else 'user'`. -/
def inboundRole (t : Option String) : String :=
  if t = some "bot" then "model" else "user"

/-- app.py line 164: `"bot" if role == "model" else "user"`. -/
def outboundType (r : String) : String :=
  if r = "model" then "bot" else "user"

/-- app.py lines 118-122: rebuild the Vertex history from the frontend one. -/
def historyForModel (hs : List FrontMsg) : List Content :=
  hs.map (fun h => { role := inboundRole h.type
                     parts := [VPart.text (h.content.getD "")] })

/-- The text parts of one turn (app.py lines 153-157). -/
def textParts (c : Content) : List String :=
  c.parts.filterMap partText?

/-- An outbound frontend history entry (app.py lines 162-167). -/
structure OutMsg where
  id : String
  type : String
  content : String
  timestamp : String

/-- The loop body of app.py lines 147-167, with `i` the running
`enumerate` index: skip turns whose role is not user/model or whose parts
are empty, skip turns with no text part, otherwise emit the frontend entry
joining all text parts with a newline. -/
def rebuildFrom (now : String) (i : Nat) : List Content → List OutMsg
  | [] => []
  | c :: rest =>
    if !(c.role == "user" || c.role == "model") || c.parts.isEmpty then
      rebuildFrom now (i + 1) rest
    else
      let tp := textParts c
      if tp.isEmpty then
        rebuildFrom now (i + 1) rest
      else
        { id := "history-msg-" ++ toString i
          type := outboundType c.role
          content := String.intercalate "\n" tp
          timestamp := now } :: rebuildFrom now (i + 1) rest

/-- app.py lines 146-167: `final_history_for_frontend`. -/
def rebuildHistory (now : String) (hist : List Content) : List OutMsg :=
  rebuildFrom now 0 hist

/-- Serialize one outbound history entry for the response body. -/
def outMsgJ (m : OutMsg) : JVal :=
  JVal.obj [("id", JVal.str m.id), ("type", JVal.str m.type),
            ("content", JVal.str m.content), ("timestamp", JVal.str m.timestamp)]

/-- app.py lines 127-143: inspect the first candidate's function calls and
dispatch the first one when its name matches a known tool, feeding the tool
output back into the chat session. -/
def dispatchCall (resp : VResponse) (st : ChatSt) (cred : String)
    (senv : StorageEnv) : (Except String VResponse × ChatSt) × List Event :=
  match resp.candidates with
  | [] => ((Except.ok resp, st), [])
  | cand :: _ =>
    match cand.function_calls with
    | [] => ((Except.ok resp, st), [])
    | fc :: _ =>
      if fc.name = "list_gcs_buckets" then
        let tool_output :=
          list_gcs_buckets_func (argGet fc.args "project_id") cred senv
        (sendMessage st (SentMsg.functionResponse "list_gcs_buckets" tool_output),
         [Event.toolCalled "list_gcs_buckets",
          Event.chatSent (SentMsg.functionResponse "list_gcs_buckets" tool_output)])
      else if fc.name = "get_gcs_bucket_details" then
        let tool_output :=
          get_gcs_bucket_details_func (argGet fc.args "bucket_name")
            (argGet fc.args "project_id") cred senv
        (sendMessage st (SentMsg.functionResponse "get_gcs_bucket_details" tool_output),
         [Event.toolCalled "get_gcs_bucket_details",
          Event.chatSent (SentMsg.functionResponse "get_gcs_bucket_details" tool_output)])
      else ((Except.ok resp, st), [])

/-- The body of the `try` block (app.py lines 107-169), given the extracted
access token.  `Except.error e` is an exception escaping to the handler's
`except` clause; the event trace is returned in either case. -/
def runBody (req : HttpRequest) (token : String) (env : Env) :
    Except String HandlerResult × List Event :=
  match req.jsonBody with
  | Except.error e => (Except.error e, [])
  | Except.ok data =>
    if pyTruthyOpt data.prompt = false then
      (Except.ok { status := 400
                   body := JVal.obj [("error", JVal.str "Prompt not provided")] }, [])
    else
      let promptText := data.prompt.getD ""
      let st0 : ChatSt := { history := historyForModel data.history, script := env.script }
      match sendMessage st0 (SentMsg.prompt promptText) with
      | (Except.error e, _) =>
          (Except.error e, [Event.chatSent (SentMsg.prompt promptText)])
      | (Except.ok resp, st1) =>
        match dispatchCall resp st1 token env.storage with
        | ((Except.error e, _), evs) =>
            (Except.error e, Event.chatSent (SentMsg.prompt promptText) :: evs)
        | ((Except.ok resp2, st2), evs) =>
          let outHist := rebuildHistory env.now st2.history
          (Except.ok { status := 200
                       body := JVal.obj
                         [("response", JVal.str resp2.text),
                          ("history", JVal.arr (outHist.map outMsgJ))] },
           Event.chatSent (SentMsg.prompt promptText) :: evs)

/-- Character-list prefix test (used to embed Python's `in` on strings). -/
def isPrefixCh : List Char → List Char → Bool
  | [], _ => true
  | _ :: _, [] => false
  | p :: ps, c :: cs => p == c && isPrefixCh ps cs

/-- Character-list infix test. -/
def hasInfix (pat : List Char) : List Char → Bool
  | [] => isPrefixCh pat []
  | c :: cs => isPrefixCh pat (c :: cs) || hasInfix pat cs

/-- Python `pat in s` for strings: substring containment. -/
def pyIn (pat s : String) : Bool :=
  hasInfix pat.toList s.toList

/-- Python `s.startswith(pre)`. -/
def pyStartsWith (s pre : String) : Bool :=
  isPrefixCh pre.toList s.toList

/-- Python `s.split(sep)` for a one-character separator, over character
lists: splits at every occurrence, keeping empty fields. -/
def splitOnChar (sep : Char) : List Char → List (List Char)
  | [] => [[]]
  | c :: rest =>
    if c == sep then [] :: splitOnChar sep rest
    else
      match splitOnChar sep rest with
      | [] => [[c]]
      | w :: ws => (c :: w) :: ws

/-- Python `s.split(' ')`. -/
def pySplitSpace (s : String) : List String :=
  (splitOnChar ' ' s.toList).map String.mk

/-- app.py line 101: the Authorization header is present and starts with
`"Bearer "`.  (An absent or empty header is falsy; an empty header also
fails `startswith`, so truthiness needs no separate case.) -/
def authOk (req : HttpRequest) : Bool :=
  match req.authHeader with
  | none => false
  | some a => pyStartsWith a "Bearer "

/-- app.py line 104: `auth_header.split(' ')[1]`. -/
def tokenOf (req : HttpRequest) : String :=
  match req.authHeader with
  | none => ""
  | some a => (pySplitSpace a).getD 1 ""

/-- The 401 response of app.py line 102. -/
def err401Auth : HandlerResult :=
  { status := 401
    body := JVal.obj [("error", JVal.str "Authorization (Access Token) not provided or invalid")] }

/-- `handle_prompt` (app.py lines 96-175): OPTIONS preflight, Authorization
check, then the try/except body.  The `except` clause promotes messages
containing `"Invalid credential"` to 401 and renders everything else as 500.
The second component is the instrumentation trace. -/
def handle_prompt (req : HttpRequest) (env : Env) : HandlerResult × List Event :=
  if req.method = "OPTIONS" then
    ({ status := 204, body := JVal.str "" }, [])
  else if authOk req = false then
    (err401Auth, [])
  else
    match runBody req (tokenOf req) env with
    | (Except.ok r, evs) => (r, evs)
    | (Except.error e, evs) =>
      if pyIn "Invalid credential" e then
        ({ status := 401
           body := JVal.obj [("error", JVal.str ("Invalid or expired access token: " ++ e))] }, evs)
      else
        ({ status := 500, body := JVal.obj [("error", JVal.str e)] }, evs)

/-- The function responses fed to the chat session, extracted from a trace. -/
def funcResponses (evs : List Event) : List (String × ToolResult) :=
  evs.filterMap (fun e => match e with
    | Event.chatSent (SentMsg.functionResponse n r) => some (n, r)
    | _ => none)

/-- The tool functions dispatched, extracted from a trace. -/
def toolCalls (evs : List Event) : List String :=
  evs.filterMap (fun e => match e with
    | Event.toolCalled n => some n
    | _ => none)

/-- Field lookup on a JSON object. -/
def objGet : JVal → String → Option JVal
  | JVal.obj fields, k => (fields.find? (fun p => p.1 == k)).map Prod.snd
  | _, _ => none

/-- The tool output the handler computes for the dispatched function call. -/
def toolOutputFor (fc : FunctionCall) (cred : String) (senv : StorageEnv) :
    ToolResult :=
  if fc.name = "list_gcs_buckets" then
    list_gcs_buckets_func (argGet fc.args "project_id") cred senv
  else
    get_gcs_bucket_details_func (argGet fc.args "bucket_name")
      (argGet fc.args "project_id") cred senv

/-- The keep-condition of the rebuild loop: role is user or model and the
turn has at least one text part. -/
def keepTurn (c : Content) : Bool :=
  (c.role == "user" || c.role == "model") && !(textParts c).isEmpty

/-! ### Concrete fixtures used by witness theorems -/

/-- A storage backend whose bucket lookup raises. -/
def stubStorage : StorageEnv :=
  { listBuckets := fun _ p => Except.ok [p]
    getBucket := fun _ _ _ => Except.error "bucket lookup failed" }

/-- A concrete bucket record. -/
def sampleBucket : BucketRec :=
  { name := "b", storage_class := "STANDARD", location := "US"
    location_type := "multi-region", time_created := some "2024-01-01T00:00:00"
    updated := none, versioning_enabled := true, logging := none
    labels := [("env", "dev")] }

/-- A storage backend whose calls all succeed. -/
def okStorage : StorageEnv :=
  { listBuckets := fun _ _ => Except.ok ["a", "b"]
    getBucket := fun _ _ _ => Except.ok sampleBucket }

/-- An environment with an empty chat script. -/
def envEmpty : Env := { storage := stubStorage, script := [], now := "T" }

/-- A POST request with no Authorization header. -/
def reqNoAuth : HttpRequest :=
  { method := "POST", authHeader := none
    jsonBody := Except.ok { prompt := some "hi", history := [] } }

/-- A POST request with a Bearer token but no prompt in the body. -/
def reqNoPrompt : HttpRequest :=
  { method := "POST", authHeader := some "Bearer tok"
    jsonBody := Except.ok { prompt := none, history := [] } }

/-- A POST request with a Bearer token whose body fails to parse. -/
def reqBadJson : HttpRequest :=
  { method := "POST", authHeader := some "Bearer tok"
    jsonBody := Except.error "boom" }

/-! ### Claim theorems -/

/-- C3: history role renaming round-trips: the composed outbound-after-inbound
mapping is idempotent on every message type, and fixes the types `user` and
`bot`. -/
theorem role_round_trip (t : Option String) :
    outboundType (inboundRole (some (outboundType (inboundRole t)))) =
        outboundType (inboundRole t) ∧
    outboundType (inboundRole (some "user")) = "user" ∧
    outboundType (inboundRole (some "bot")) = "bot" := by
  refine ⟨?_, rfl, rfl⟩
  by_cases h : t = some "bot"
  · subst h; rfl
  · simp only [inboundRole, if_neg h]; rfl

/-- C6: a POST request whose Authorization header is absent or does not start
with `"Bearer "` is answered 401 with an error body, and neither the chat
session nor any tool function is contacted (empty trace). -/
theorem auth_reject_401_no_contact (req : HttpRequest) (env : Env)
    (hm : req.method = "POST") (ha : authOk req = false) :
    (handle_prompt req env).1.status = 401 ∧
    (handle_prompt req env).2 = [] ∧
    objGet (handle_prompt req env).1.body "error" =
      some (JVal.str "Authorization (Access Token) not provided or invalid") := by
  have hno : ¬ req.method = "OPTIONS" := by rw [hm]; decide
  simp [handle_prompt, hno, ha, err401Auth, objGet]

theorem auth_reject_401_no_contact_witness :
    (handle_prompt reqNoAuth envEmpty).1.status = 401 ∧
    (handle_prompt reqNoAuth envEmpty).2 = [] ∧
    objGet (handle_prompt reqNoAuth envEmpty).1.body "error" =
      some (JVal.str "Authorization (Access Token) not provided or invalid") :=
  auth_reject_401_no_contact reqNoAuth envEmpty rfl rfl

/-- C7: a POST request with a well-formed Bearer header whose JSON body
parses but has an absent or empty prompt is answered 400 with an error
body. -/
theorem missing_prompt_400 (req : HttpRequest) (env : Env) (data : ReqBody)
    (hm : req.method = "POST") (ha : authOk req = true)
    (hj : req.jsonBody = Except.ok data) (hp : pyTruthyOpt data.prompt = false) :
    (handle_prompt req env).1.status = 400 ∧
    objGet (handle_prompt req env).1.body "error" =
      some (JVal.str "Prompt not provided") := by
  have hno : ¬ req.method = "OPTIONS" := by rw [hm]; decide
  simp [handle_prompt, hno, ha, runBody, hj, hp, objGet]

theorem missing_prompt_400_witness :
    (handle_prompt reqNoPrompt envEmpty).1.status = 400 ∧
    objGet (handle_prompt reqNoPrompt envEmpty).1.body "error" =
      some (JVal.str "Prompt not provided") :=
  missing_prompt_400 reqNoPrompt envEmpty { prompt := none, history := [] }
    rfl rfl rfl rfl

/-- C10: the Authorization check strictly precedes body parsing and the
prompt check: a POST request without a well-formed Bearer header gets 401
regardless of its body, and a 400 response can only arise after the
Authorization header was accepted. -/
theorem auth_precedes_prompt_check (req : HttpRequest) (env : Env) :
    (req.method = "POST" → authOk req = false →
      (handle_prompt req env).1.status = 401) ∧
    ((handle_prompt req env).1.status = 400 → authOk req = true) := by
  constructor
  · intro hm ha
    have hno : ¬ req.method = "OPTIONS" := by rw [hm]; decide
    simp [handle_prompt, hno, ha, err401Auth]
  · intro h400
    by_cases hm : req.method = "OPTIONS"
    · simp [handle_prompt, hm] at h400
    · by_cases ha : authOk req = false
      · simp [handle_prompt, hm, ha, err401Auth] at h400
      · cases hb : authOk req
        · exact absurd hb ha
        · rfl

theorem auth_precedes_prompt_check_witness :
    (handle_prompt reqNoAuth envEmpty).1.status = 401 :=
  (auth_precedes_prompt_check reqNoAuth envEmpty).1 rfl rfl

/-- C5: when the try-block raises with message `msg` after the Authorization
check passed, the handler answers 401 exactly when `msg` contains the
substring `"Invalid credential"`, and otherwise answers 500 with `msg` as the
error string. -/
theorem catch_clause_status (req : HttpRequest) (env : Env) (msg : String)
    (evs : List Event)
    (hm : req.method = "POST") (ha : authOk req = true)
    (hr : runBody req (tokenOf req) env = (Except.error msg, evs)) :
    ((handle_prompt req env).1.status = 401 ↔
      pyIn "Invalid credential" msg = true) ∧
    (pyIn "Invalid credential" msg = true →
      (handle_prompt req env).1.body =
        JVal.obj [("error", JVal.str ("Invalid or expired access token: " ++ msg))]) ∧
    (pyIn "Invalid credential" msg = false →
      (handle_prompt req env).1 =
        { status := 500, body := JVal.obj [("error", JVal.str msg)] }) := by
  have hno : ¬ req.method = "OPTIONS" := by rw [hm]; decide
  cases hin : pyIn "Invalid credential" msg
  · simp [handle_prompt, hno, ha, hr, hin]
  · simp [handle_prompt, hno, ha, hr, hin]

theorem catch_clause_status_witness :
    (handle_prompt reqBadJson envEmpty).1 =
      { status := 500, body := JVal.obj [("error", JVal.str "boom")] } :=
  (catch_clause_status reqBadJson envEmpty "boom" [] rfl rfl rfl).2.2 rfl

/-- C4: the tool functions are total result mappings: a missing required
argument yields the corresponding error dict, a storage exception is
converted into `{"error": str(e)}`, and every outcome is either an
error dict or the success payload — nothing is ever propagated as a
fault. -/
theorem tool_funcs_never_fault (pid bn : Option String) (cred : String)
    (env : StorageEnv) :
    (pyTruthyOpt pid = false →
      list_gcs_buckets_func pid cred env =
        [("error", JVal.str "Project ID not provided by the model.")]) ∧
    (∀ e, pyTruthyOpt pid = true →
      env.listBuckets cred (pid.getD "") = Except.error e →
      list_gcs_buckets_func pid cred env = [("error", JVal.str e)]) ∧
    (hasKey (list_gcs_buckets_func pid cred env) "error" = true ∨
      ∃ bs : List String, list_gcs_buckets_func pid cred env =
        [("buckets", JVal.arr (List.map JVal.str bs))]) ∧
    (pyTruthyOpt bn = false ∨ pyTruthyOpt pid = false →
      hasKey (get_gcs_bucket_details_func bn pid cred env) "error" = true) ∧
    (∀ e, pyTruthyOpt bn = true → pyTruthyOpt pid = true →
      env.getBucket cred (pid.getD "") (bn.getD "") = Except.error e →
      get_gcs_bucket_details_func bn pid cred env = [("error", JVal.str e)]) ∧
    (hasKey (get_gcs_bucket_details_func bn pid cred env) "error" = true ∨
      ∃ b, get_gcs_bucket_details_func bn pid cred env = detailsOf b) := by
  refine ⟨?_, ?_, ?_, ?_, ?_, ?_⟩
  · intro h
    simp [list_gcs_buckets_func, h]
  · intro e hp he
    simp [list_gcs_buckets_func, hp, he]
  · cases hp : pyTruthyOpt pid
    · left; simp [list_gcs_buckets_func, hp, hasKey]
    · cases hl : env.listBuckets cred (pid.getD "") with
      | ok bs => exact Or.inr ⟨bs, by simp [list_gcs_buckets_func, hp, hl]⟩
      | error e => left; simp [list_gcs_buckets_func, hp, hl, hasKey]
  · rintro (h | h)
    · simp [get_gcs_bucket_details_func, h, hasKey]
    · cases hb : pyTruthyOpt bn
      · simp [get_gcs_bucket_details_func, hb, hasKey]
      · simp [get_gcs_bucket_details_func, hb, h, hasKey]
  · intro e hb hp he
    simp [get_gcs_bucket_details_func, hb, hp, he]
  · cases hb : pyTruthyOpt bn
    · left; simp [get_gcs_bucket_details_func, hb, hasKey]
    · cases hp : pyTruthyOpt pid
      · left; simp [get_gcs_bucket_details_func, hb, hp, hasKey]
      · cases hg : env.getBucket cred (pid.getD "") (bn.getD "") with
        | ok b => exact Or.inr ⟨b, by simp [get_gcs_bucket_details_func, hb, hp, hg]⟩
        | error e => left; simp [get_gcs_bucket_details_func, hb, hp, hg, hasKey]

theorem tool_funcs_never_fault_witness :
    list_gcs_buckets_func none "tok" stubStorage =
      [("error", JVal.str "Project ID not provided by the model.")] :=
  (tool_funcs_never_fault none none "tok" stubStorage).1 rfl

/-- C8: with both arguments supplied and a successful lookup,
`get_gcs_bucket_details_func` returns the flat details record with exactly
the fields name, storage_class, location, location_type, time_created,
updated, versioning_enabled, logging and labels (datetimes as ISO strings or
null, logging as text or null, per `detailsOf`); otherwise it returns an
`{"error": string}` dict. -/
theorem get_bucket_details_shape (bn pid : Option String) (cred : String)
    (env : StorageEnv) :
    (∀ b, pyTruthyOpt bn = true → pyTruthyOpt pid = true →
      env.getBucket cred (pid.getD "") (bn.getD "") = Except.ok b →
      get_gcs_bucket_details_func bn pid cred env = detailsOf b ∧
      (get_gcs_bucket_details_func bn pid cred env).map Prod.fst =
        ["name", "storage_class", "location", "location_type", "time_created",
         "updated", "versioning_enabled", "logging", "labels"]) ∧
    ((pyTruthyOpt bn = false ∨ pyTruthyOpt pid = false ∨
        (∃ e, env.getBucket cred (pid.getD "") (bn.getD "") = Except.error e)) →
      ∃ e, get_gcs_bucket_details_func bn pid cred env =
        [("error", JVal.str e)]) := by
  constructor
  · intro b hb hp hg
    have hd : get_gcs_bucket_details_func bn pid cred env = detailsOf b := by
      simp [get_gcs_bucket_details_func, hb, hp, hg]
    exact ⟨hd, by rw [hd]; simp [detailsOf]⟩
  · rintro (h | h | ⟨e, he⟩)
    · exact ⟨"Bucket name not provided by the model.",
        by simp [get_gcs_bucket_details_func, h]⟩
    · cases hb : pyTruthyOpt bn
      · exact ⟨"Bucket name not provided by the model.",
          by simp [get_gcs_bucket_details_func, hb]⟩
      · exact ⟨"Project ID not provided by the model for getting bucket details.",
          by simp [get_gcs_bucket_details_func, hb, h]⟩
    · cases hb : pyTruthyOpt bn
      · exact ⟨"Bucket name not provided by the model.",
          by simp [get_gcs_bucket_details_func, hb]⟩
      · cases hp : pyTruthyOpt pid
        · exact ⟨"Project ID not provided by the model for getting bucket details.",
            by simp [get_gcs_bucket_details_func, hb, hp]⟩
        · exact ⟨e, by simp [get_gcs_bucket_details_func, hb, hp, he]⟩

/-- A turn with no parts has no text parts. -/
theorem textParts_of_isEmpty (c : Content) (h : c.parts.isEmpty = true) :
    (textParts c).isEmpty = true := by
  cases hp : c.parts with
  | nil => simp [textParts, hp]
  | cons a l => rw [hp] at h; simp at h

/-- The rebuild loop agrees with filter-then-map for every start index: the
emitted (type, content) pairs are exactly those of the kept turns. -/
theorem rebuildFrom_spec (now : String) (hist : List Content) :
    ∀ i, (rebuildFrom now i hist).map (fun m => (m.type, m.content)) =
      (hist.filter keepTurn).map
        (fun c => (outboundType c.role, String.intercalate "\n" (textParts c))) := by
  induction hist with
  | nil => intro i; rfl
  | cons c rest ih =>
    intro i
    cases hrole : (c.role == "user" || c.role == "model") with
    | false =>
      have hk : keepTurn c = false := by simp [keepTurn, hrole]
      simp [rebuildFrom, hrole, List.filter_cons, hk, ih]
    | true =>
      cases hparts : c.parts.isEmpty with
      | true =>
        have htp := textParts_of_isEmpty c hparts
        have hk : keepTurn c = false := by simp [keepTurn, htp]
        simp [rebuildFrom, hrole, hparts, List.filter_cons, hk, ih]
      | false =>
        cases htp : (textParts c).isEmpty with
        | true =>
          have hk : keepTurn c = false := by simp [keepTurn, htp]
          simp [rebuildFrom, hrole, hparts, htp, List.filter_cons, hk, ih]
        | false =>
          have hk : keepTurn c = true := by simp [keepTurn, hrole, htp]
          simp [rebuildFrom, hrole, hparts, htp, List.filter_cons, hk, ih]

/-- C2: the outbound history keeps exactly the turns whose role is user or
model and that have at least one text part, maps role model to type bot and
user to user (`outboundType`), and sets the content to all text parts of the
turn joined by a newline; every other turn is discarded. -/
theorem rebuild_history_spec (now : String) (hist : List Content) :
    (rebuildHistory now hist).map (fun m => (m.type, m.content)) =
      (hist.filter keepTurn).map
        (fun c => (outboundType c.role, String.intercalate "\n" (textParts c))) :=
  rebuildFrom_spec now hist 0

/-! ### Trace bookkeeping lemmas -/

@[simp] theorem funcResponses_nil : funcResponses [] = [] := rfl

@[simp] theorem funcResponses_cons_prompt (p : String) (evs : List Event) :
    funcResponses (Event.chatSent (SentMsg.prompt p) :: evs) =
      funcResponses evs := rfl

@[simp] theorem funcResponses_cons_tool (n : String) (evs : List Event) :
    funcResponses (Event.toolCalled n :: evs) = funcResponses evs := rfl

@[simp] theorem funcResponses_cons_fr (n : String) (r : ToolResult)
    (evs : List Event) :
    funcResponses (Event.chatSent (SentMsg.functionResponse n r) :: evs) =
      (n, r) :: funcResponses evs := rfl

@[simp] theorem toolCalls_nil : toolCalls [] = [] := rfl

@[simp] theorem toolCalls_cons_sent (m : SentMsg) (evs : List Event) :
    toolCalls (Event.chatSent m :: evs) = toolCalls evs := rfl

@[simp] theorem toolCalls_cons_tool (n : String) (evs : List Event) :
    toolCalls (Event.toolCalled n :: evs) = n :: toolCalls evs := rfl

theorem get_bucket_details_shape_witness :
    get_gcs_bucket_details_func (some "b") (some "p") "tok" okStorage =
      detailsOf sampleBucket ∧
    (get_gcs_bucket_details_func (some "b") (some "p") "tok" okStorage).map
        Prod.fst =
      ["name", "storage_class", "location", "location_type", "time_created",
       "updated", "versioning_enabled", "logging", "labels"] :=
  (get_bucket_details_shape (some "b") (some "p") "tok" okStorage).1
    sampleBucket rfl rfl rfl

/-- The dispatch step feeds at most one function response to the chat
session. -/
theorem funcResponses_dispatchCall_le (resp : VResponse) (st : ChatSt)
    (cred : String) (senv : StorageEnv) :
    (funcResponses (dispatchCall resp st cred senv).2).length ≤ 1 := by
  cases hc : resp.candidates with
  | nil => simp [dispatchCall, hc]
  | cons cand cands =>
    cases hf : cand.function_calls with
    | nil => simp [dispatchCall, hc, hf]
    | cons fc fcs =>
      by_cases h1 : fc.name = "list_gcs_buckets"
      · simp [dispatchCall, hc, hf, h1]
      · by_cases h2 : fc.name = "get_gcs_bucket_details"
        · simp [dispatchCall, hc, hf, h1, h2]
        · simp [dispatchCall, hc, hf, h1, h2]

/-- When the first candidate's first function call bears a recognised tool
name, the dispatch step feeds back exactly that call's output, once. -/
theorem funcResponses_dispatchCall_known (resp : VResponse) (st : ChatSt)
    (cred : String) (senv : StorageEnv) (cand : Candidate)
    (cands : List Candidate) (fc : FunctionCall) (fcs : List FunctionCall)
    (hc : resp.candidates = cand :: cands)
    (hf : cand.function_calls = fc :: fcs)
    (hn : fc.name = "list_gcs_buckets" ∨ fc.name = "get_gcs_bucket_details") :
    funcResponses (dispatchCall resp st cred senv).2 =
      [(fc.name, toolOutputFor fc cred senv)] := by
  rcases hn with hn | hn <;>
    simp [dispatchCall, hc, hf, hn, toolOutputFor]

/-- The try-block feeds at most one function response per request. -/
theorem funcResponses_runBody_le (req : HttpRequest) (token : String)
    (env : Env) :
    (funcResponses (runBody req token env).2).length ≤ 1 := by
  unfold runBody
  split
  · simp
  · split
    · simp
    · dsimp only
      split
      · simp
      · next resp st1 heq =>
        split
        · next e st2 evs heq2 =>
          have hle := funcResponses_dispatchCall_le resp st1 token env.storage
          rw [heq2] at hle
          simpa using hle
        · next resp2 st2 evs heq2 =>
          have hle := funcResponses_dispatchCall_le resp st1 token env.storage
          rw [heq2] at hle
          simpa using hle

/-- After the OPTIONS and Authorization gates, the handler's trace is the
try-block's trace, whether the body succeeded or raised. -/
theorem handle_prompt_trace (req : HttpRequest) (env : Env)
    (hno : ¬ req.method = "OPTIONS") (ha : authOk req = true) :
    (handle_prompt req env).2 = (runBody req (tokenOf req) env).2 := by
  unfold handle_prompt
  rw [if_neg hno, if_neg (by simp [ha])]
  rcases h : runBody req (tokenOf req) env with ⟨r, evs⟩
  cases r with
  | error e =>
    dsimp only
    split <;> rfl
  | ok r => rfl

/-- When the prompt exchange succeeds, the try-block's trace is the prompt
send followed by the dispatch step's events. -/
theorem runBody_trace (req : HttpRequest) (token : String) (env : Env)
    (data : ReqBody) (resp : VResponse) (app : List Content)
    (rest : List (Except String (VResponse × List Content)))
    (hj : req.jsonBody = Except.ok data) (hp : pyTruthyOpt data.prompt = true)
    (hs : env.script = Except.ok (resp, app) :: rest) :
    (runBody req token env).2 =
      Event.chatSent (SentMsg.prompt (data.prompt.getD "")) ::
        (dispatchCall resp
          { history := historyForModel data.history ++ app, script := rest }
          token env.storage).2 := by
  unfold runBody
  rw [hj]
  simp only [hp, Bool.true_eq_false, if_false, sendMessage, hs]
  rcases hd : dispatchCall resp
      { history := historyForModel data.history ++ app, script := rest }
      token env.storage with ⟨⟨r, st2⟩, evs⟩
  cases r <;> rfl

/-- C1: at most one function call is serviced per request: every run feeds
at most one function response to the chat session, and whenever the first
candidate's function-call list is non-empty with a recognised tool name at
its head, exactly the first call is dispatched (even if several are present)
and its output is fed back exactly once. -/
theorem single_function_call_serviced (req : HttpRequest) (env : Env) :
    (funcResponses (handle_prompt req env).2).length ≤ 1 ∧
    (∀ (data : ReqBody) (resp : VResponse) (app : List Content)
        (rest : List (Except String (VResponse × List Content)))
        (cand : Candidate) (cands : List Candidate)
        (fc : FunctionCall) (fcs : List FunctionCall),
      req.method = "POST" → authOk req = true →
      req.jsonBody = Except.ok data → pyTruthyOpt data.prompt = true →
      env.script = Except.ok (resp, app) :: rest →
      resp.candidates = cand :: cands →
      cand.function_calls = fc :: fcs →
      (fc.name = "list_gcs_buckets" ∨ fc.name = "get_gcs_bucket_details") →
      funcResponses (handle_prompt req env).2 =
        [(fc.name, toolOutputFor fc (tokenOf req) env.storage)]) := by
  constructor
  · by_cases hm : req.method = "OPTIONS"
    · simp [handle_prompt, hm]
    · by_cases ha : authOk req = false
      · simp [handle_prompt, hm, ha]
      · have ha' : authOk req = true := by
          cases hb : authOk req
          · exact absurd hb ha
          · rfl
        rw [handle_prompt_trace req env hm ha']
        exact funcResponses_runBody_le req (tokenOf req) env
  · intro data resp app rest cand cands fc fcs hm ha hj hp hs hc hf hn
    have hno : ¬ req.method = "OPTIONS" := by rw [hm]; decide
    rw [handle_prompt_trace req env hno ha,
      runBody_trace req (tokenOf req) env data resp app rest hj hp hs,
      funcResponses_cons_prompt,
      funcResponses_dispatchCall_known resp _ (tokenOf req) env.storage
        cand cands fc fcs hc hf hn]

/-- C9: when the first function call's name is neither recognised tool, no
tool function is invoked, no function response is fed to the chat session,
and the handler serializes the model's original response with status 200. -/
theorem unknown_function_call_ignored (req : HttpRequest) (env : Env)
    (data : ReqBody) (resp : VResponse) (app : List Content)
    (rest : List (Except String (VResponse × List Content)))
    (cand : Candidate) (cands : List Candidate)
    (fc : FunctionCall) (fcs : List FunctionCall)
    (hm : req.method = "POST") (ha : authOk req = true)
    (hj : req.jsonBody = Except.ok data) (hp : pyTruthyOpt data.prompt = true)
    (hs : env.script = Except.ok (resp, app) :: rest)
    (hc : resp.candidates = cand :: cands)
    (hf : cand.function_calls = fc :: fcs)
    (hn1 : fc.name ≠ "list_gcs_buckets")
    (hn2 : fc.name ≠ "get_gcs_bucket_details") :
    toolCalls (handle_prompt req env).2 = [] ∧
    funcResponses (handle_prompt req env).2 = [] ∧
    (handle_prompt req env).1.status = 200 ∧
    objGet (handle_prompt req env).1.body "response" =
      some (JVal.str resp.text) := by
  have hno : ¬ req.method = "OPTIONS" := by rw [hm]; decide
  simp [handle_prompt, hno, ha, runBody, hj, hp, sendMessage, hs,
    dispatchCall, hc, hf, hn1, hn2, objGet]

/-- A POST request carrying a Bearer token and a prompt. -/
def reqPrompt : HttpRequest :=
  { method := "POST", authHeader := some "Bearer tok"
    jsonBody := Except.ok { prompt := some "hi", history := [] } }

/-- A model function call naming the bucket-listing tool with no args. -/
def fcList : FunctionCall := { name := "list_gcs_buckets", args := [] }

/-- A response whose first candidate requests `list_gcs_buckets`. -/
def respList : VResponse :=
  { candidates := [{ function_calls := [fcList] }], text := "calling tool" }

/-- An environment scripting that single tool-calling response. -/
def envList : Env :=
  { storage := stubStorage, script := [Except.ok (respList, [])], now := "T" }

/-- A model function call with an unrecognised name. -/
def fcOther : FunctionCall := { name := "mystery_tool", args := [] }

/-- A response whose first candidate requests an unrecognised tool. -/
def respOther : VResponse :=
  { candidates := [{ function_calls := [fcOther] }], text := "no tool" }

/-- An environment scripting that unrecognised-tool response. -/
def envOther : Env :=
  { storage := stubStorage, script := [Except.ok (respOther, [])], now := "T" }

theorem single_function_call_serviced_witness :
    funcResponses (handle_prompt reqPrompt envList).2 =
      [("list_gcs_buckets",
        toolOutputFor fcList (tokenOf reqPrompt) envList.storage)] :=
  (single_function_call_serviced reqPrompt envList).2
    { prompt := some "hi", history := [] } respList [] []
    { function_calls := [fcList] } [] fcList []
    rfl rfl rfl rfl rfl rfl rfl (Or.inl rfl)

theorem unknown_function_call_ignored_witness :
    toolCalls (handle_prompt reqPrompt envOther).2 = [] ∧
    funcResponses (handle_prompt reqPrompt envOther).2 = [] ∧
    (handle_prompt reqPrompt envOther).1.status = 200 ∧
    objGet (handle_prompt reqPrompt envOther).1.body "response" =
      some (JVal.str respOther.text) :=
  unknown_function_call_ignored reqPrompt envOther
    { prompt := some "hi", history := [] } respOther [] []
    { function_calls := [fcOther] } [] fcOther []
    rfl rfl rfl rfl rfl rfl rfl (by decide) (by decide)

end GcsAgent
